import Mathlib

/-
Verification of the orka-reasoning ChatMode artifact generator.

The definitions below are a shallow embedding of
  src/orka/cli/chatmode.py            (HighLevelArchitectChatMode)
  src/orka/agents/architectural_documentation_agent.py
Filesystem writes are modelled as an explicit list of effects, the
second-resolution timestamp is threaded as an explicit string argument,
and Python dictionaries of request parameters are modelled as functions
from keys to optional values.
-/

namespace Orka

/-- A parameter value in the adapter layer: either a string (as produced by
key=value parsing or a plain context entry) or a string-to-string mapping
(as used for the constraints dictionary). -/
inductive PVal where
  | str (s : String)
  | map (m : List (String × String))
deriving DecidableEq

/-- The merged parameter dictionary of the adapter layer. -/
abbrev Params := String → Option PVal

/-- Dictionary insertion: the new binding overwrites any previous one. -/
def pinsert (m : Params) (k : String) (v : PVal) : Params :=
  fun x => if x = k then some v else m x

/-- Apply a list of context bindings in order, as dict.update does. -/
def applyCtx (m : Params) : List (String × PVal) → Params
  | [] => m
  | kv :: rest => applyCtx (pinsert m kv.1 kv.2) rest

/-- Apply parsed key=value text lines in order; each overwrites the key. -/
def applyLines (m : Params) : List (String × String) → Params
  | [] => m
  | kv :: rest => applyLines (pinsert m kv.1 (PVal.str kv.2)) rest

/-- Split a character list at every occurrence of the separator, like
Python str.split with a single-character separator. -/
def splitOnChar (c : Char) : List Char → List (List Char)
  | [] => [[]]
  | x :: xs =>
    let r := splitOnChar c xs
    if x = c then [] :: r
    else
      match r with
      | h :: rest => (x :: h) :: rest
      | [] => [[x]]

/-- Strip leading and trailing whitespace, like Python str.strip. -/
def trimChars (l : List Char) : List Char :=
  (((l.dropWhile Char.isWhitespace).reverse.dropWhile Char.isWhitespace).reverse)

/-- Split at the first equals sign, like Python line.split with maxsplit 1. -/
def splitFirstEq : List Char → Option (List Char × List Char)
  | [] => none
  | x :: xs =>
    if x = '=' then some ([], xs)
    else (splitFirstEq xs).map (fun pr => (x :: pr.1, pr.2))

/-- The key=value lines extracted from the input text, with keys and values
stripped, in order of appearance (chatmode agent, parse_input loop). -/
def parseLines (input_data : String) : List (String × String) :=
  (splitOnChar '\n' input_data.data).filterMap (fun lineRaw =>
    let line := trimChars lineRaw
    if line.elem '=' then
      match splitFirstEq line with
      | some kv => some (String.mk (trimChars kv.1), String.mk (trimChars kv.2))
      | none => none
    else none)

/-- ArchitecturalDocumentationAgent.parse_input: context is applied first,
then key=value lines parsed from the text overwrite matching keys; a text
without an equals sign becomes the prompt when no prompt is set. -/
def parse_input (input_data : String) (context : Option (List (String × PVal))) : Params :=
  let params : Params := fun _ => none
  let params :=
    match context with
    | some c => applyCtx params c
    | none => params
  if input_data.data.elem '=' then
    applyLines params (parseLines input_data)
  else
    if (params "prompt").isNone then pinsert params "prompt" (PVal.str input_data)
    else params

/-- Python truthiness test used by the required-parameter checks:
an absent value, an empty string and an empty mapping are all falsy. -/
def isFalsy : Option PVal → Bool
  | none => true
  | some (PVal.str s) => s = ""
  | some (PVal.map m) => m.isEmpty

/-- Read a parameter as a string, with a default for absent values. -/
def asStr (v : Option PVal) (dflt : String) : String :=
  match v with
  | some (PVal.str s) => s
  | _ => dflt

/-- Read the constraints parameter as a mapping when it is one. -/
def asCmap (v : Option PVal) : Option (List (String × String)) :=
  match v with
  | some (PVal.map m) => some m
  | _ => none

/- ------------------------------------------------------------------ -/
/- Substring machinery (executable, used to state containment claims). -/

/-- Check whether sub occurs as a contiguous run inside the second list. -/
def infixCheck (sub : List Char) : List Char → Bool
  | [] => sub.isEmpty
  | c :: rest => sub.isPrefixOf (c :: rest) || infixCheck sub rest

/-- Executable substring test on strings. -/
def strContains (s sub : String) : Bool :=
  infixCheck sub.data s.data

theorem strdata_append (a b : String) : (a ++ b).data = a.data ++ b.data := by
  cases a; cases b; rfl

theorem isPrefixOf_self_append (l r : List Char) : l.isPrefixOf (l ++ r) = true := by
  rw [ List.isPrefixOf_iff_prefix]
  exact List.prefix_append l r

theorem isPrefixOf_extend (l b x : List Char)
    (h : l.isPrefixOf b = true) : l.isPrefixOf (b ++ x) = true := by
  rw [ List.isPrefixOf_iff_prefix] at h ⊢
  exact h.trans (List.prefix_append b x)

theorem infixCheck_nil_sub (l : List Char) : infixCheck [] l = true := by
  induction l with
  | nil => rfl
  | cons c rest ih => simp [infixCheck, List.isPrefixOf]

theorem infixCheck_extend_right (sub : List Char) :
    ∀ (r x : List Char), infixCheck sub r = true → infixCheck sub (r ++ x) = true := by
  intro r
  induction r with
  | nil =>
    intro x h
    simp [infixCheck] at h
    subst h
    exact infixCheck_nil_sub x
  | cons c rest ih =>
    intro x h
    simp [infixCheck] at h ⊢
    rcases h with h | h
    · exact Or.inl (h.trans (List.prefix_append (c :: rest) x))
    · exact Or.inr (ih x h)

theorem infixCheck_self (sub r : List Char) : infixCheck sub (sub ++ r) = true := by
  cases sub with
  | nil => exact infixCheck_nil_sub r
  | cons a s =>
    simp only [infixCheck, List.cons_append]
    have h := isPrefixOf_self_append (a :: s) r
    simp only [List.cons_append] at h
    simp [h]

theorem infixCheck_extend_left (sub : List Char) :
    ∀ (a r : List Char), infixCheck sub r = true → infixCheck sub (a ++ r) = true := by
  intro a
  induction a with
  | nil => intro r h; exact h
  | cons c t ih =>
    intro r h
    simp only [List.cons_append, infixCheck]
    simp [ih r h]

theorem strContains_append_right (s x sub : String)
    (h : strContains s sub = true) : strContains (s ++ x) sub = true := by
  unfold strContains at h ⊢
  rw [strdata_append]
  exact infixCheck_extend_right sub.data s.data x.data h

theorem strContains_head (sub q : String) : strContains (sub ++ q) sub = true := by
  unfold strContains
  rw [strdata_append]
  exact infixCheck_self sub.data q.data

theorem strContains_mid (p sub q : String) : strContains (p ++ sub ++ q) sub = true := by
  unfold strContains
  rw [strdata_append, strdata_append]
  rw [List.append_assoc]
  exact infixCheck_extend_left sub.data p.data _ (infixCheck_self sub.data q.data)

/- ------------------------------------------------------------------ -/
/- HighLevelArchitectChatMode (src/orka/cli/chatmode.py)               -/

/-- A constraints dictionary as passed to process. -/
abbrev Cmap := List (String × String)

/-- A filesystem side effect performed by the dispatcher or a generator. -/
inductive Effect where
  | mkdir (path : String)
  | write (path : String) (content : String)
deriving DecidableEq

/-- The dictionary returned by each diagram generator:
diagram_file, diagram_type and content keys. -/
structure DiagramResult where
  diagram_file : String
  diagram_type : String
  content : String
deriving DecidableEq

/-- The dictionary returned by process: document generators return
document, diagramFiles and content keys; the diagram branch returns the
diagram generator dictionary unchanged. -/
inductive ProcResult where
  | docResult (document : String) (diagramFiles : List String) (content : String)
  | diagResult (dr : DiagramResult)
deriving DecidableEq

/-- The content key, present in every result shape. -/
def ProcResult.content : ProcResult → String
  | ProcResult.docResult _ _ c => c
  | ProcResult.diagResult dr => dr.content

/-- The diagramFiles key of a document-shaped result. -/
def ProcResult.diagramFilesOf : ProcResult → Option (List String)
  | ProcResult.docResult _ fs _ => some fs
  | ProcResult.diagResult _ => none

/-- The diagram_type key of a diagram-shaped result. -/
def ProcResult.diagramTypeOf : ProcResult → Option String
  | ProcResult.docResult _ _ _ => none
  | ProcResult.diagResult dr => some dr.diagram_type

/-- The result of the placeholder codebase scan. -/
structure ScanResult where
  files_found : List String
  components : List String
  interfaces : List String
  dependencies : List String
deriving DecidableEq

/-- docs folder of the workspace (Path join modelled as slash concat). -/
def docs_folder (workspace : String) : String := workspace ++ "/docs"

/-- diagrams folder of the workspace. -/
def diagrams_folder (workspace : String) : String := workspace ++ "/docs/diagrams"

/-- scan_codebase: placeholder that always returns the empty structure. -/
def scan_codebase (targets : String) : ScanResult :=
  ⟨[], [], [], []⟩

/-- generate_footer: the required attribution footer. -/
def generate_footer (user_name : String) : String :=
  "_Generated with GitHub Copilot as directed by " ++ user_name ++ "_"

/-- create_flowchart_content: the flowchart diagram body.
Note that the source builds this from prompt, targets and depth only:
no user name reaches it and no footer is appended. -/
def create_flowchart_content (prompt targets depth : String) : String :=
  "flowchart TD\n    A[Start: " ++ prompt ++ "] --> B[Initialize " ++ targets ++
  "]\n    B --> C[Process Input]\n    C --> D\x7bValidate Input\x7d\n    D -->|Valid| E[Execute Business Logic]\n    D -->|Invalid| F[Return Error]\n    E --> G[Process Data]\n    G --> H[Generate Response]\n    H --> I[End: Success]\n    F --> J[End: Error]\n    \n    subgraph \"Core Processing\"\n        E\n        G\n    end\n    \n    subgraph \"Error Handling\"\n        F\n        J\n    end\n    \n    style A fill:#e1f5fe\n    style I fill:#c8e6c9\n    style J fill:#ffcdd2\n"

/-- create_documentation_content: the architecture document body.
The scan_result argument is accepted but never used by the source. -/
def create_documentation_content (prompt targets depth : String)
    (scan_result : ScanResult) (user_name : String) : String :=
  "# Architecture Documentation for " ++ targets ++
  "\n\n## Executive Summary\nThis document provides " ++ depth ++
  " level documentation for: " ++ prompt ++
  "\n\n## System Overview\n\n### Purpose\nThe " ++ targets ++
  " system is designed to handle the following requirements:\n- " ++ prompt ++
  "\n\n### Architecture Principles\n- Modularity and separation of concerns\n- Scalability and performance\n- Reliability and error handling\n- Security and data protection\n\n## Components\n\n### Core Components\n- **Main Processing Unit**: Handles primary business logic\n- **Data Layer**: Manages data persistence and retrieval\n- **API Layer**: Provides external interfaces\n- **Configuration Management**: Handles system configuration\n\n### Component Interactions\nComponents interact through well-defined interfaces and contracts.\n\n## Data Flow\n\n### Primary Data Flow\n1. Input validation and preprocessing\n2. Business logic processing\n3. Data persistence\n4. Response generation\n\n### Error Handling\n- Input validation errors\n- Processing exceptions\n- Data consistency checks\n- System recovery procedures\n\n## Integration Points\n\n### External Dependencies\n- External APIs and services\n- Database systems\n- Configuration sources\n- Monitoring and logging systems\n\n### Internal Interfaces\n- Component-to-component communication\n- Event handling mechanisms\n- Data transformation layers\n\n## Reliability Behaviors\n\n### Error Surfaces\n- Input validation failures\n- External service timeouts\n- Resource exhaustion\n- Configuration errors\n\n### Recovery Mechanisms\n- Graceful degradation\n- Retry policies\n- Circuit breaker patterns\n- Fallback procedures\n\n## Security Considerations\n\n### Authentication\n- User authentication mechanisms\n- Service-to-service authentication\n- Token management\n\n### Authorization\n- Role-based access control\n- Resource-level permissions\n- API access controls\n\n### Data Protection\n- Data encryption at rest\n- Data encryption in transit\n- PII handling procedures\n\n## Performance Characteristics\n\n### Scalability\n- Horizontal scaling capabilities\n- Vertical scaling considerations\n- Resource utilization patterns\n\n### Monitoring\n- Key performance indicators\n- Alerting mechanisms\n- Logging strategies\n\n## Future Considerations\n\n### Planned Enhancements\n- Feature roadmap items\n- Technical debt reduction\n- Performance optimizations\n\n### Migration Strategies\n- Version upgrade procedures\n- Data migration approaches\n- Backward compatibility\n\n" ++
  generate_footer user_name ++ "\n"

/-- generate_flowchart_diagram: writes the flowchart skeleton to
flowchart_ts.mmd inside the diagrams folder. -/
def generate_flowchart_diagram (workspace prompt targets depth : String)
    (constraints : Option Cmap) (user_name ts : String) : DiagramResult × List Effect :=
  let filepath := diagrams_folder workspace ++ "/flowchart_" ++ ts ++ ".mmd"
  let mermaid_content := create_flowchart_content prompt targets depth
  (⟨filepath, "flowchart", mermaid_content⟩, [Effect.write filepath mermaid_content])

/-- generate_sequence_diagram: writes the sequence skeleton to
sequence_ts.mmd inside the diagrams folder. -/
def generate_sequence_diagram (workspace prompt targets depth : String)
    (constraints : Option Cmap) (user_name ts : String) : DiagramResult × List Effect :=
  let filepath := diagrams_folder workspace ++ "/sequence_" ++ ts ++ ".mmd"
  let mermaid_content :=
    "sequenceDiagram\n    participant User\n    participant System\n    participant " ++ targets ++
    "\n    \n    User->>System: " ++ prompt ++
    "\n    System->>" ++ targets ++
    ": Process Request\n    " ++ targets ++
    "->>System: Return Result\n    System->>User: Provide Response\n    \n    Note over User," ++ targets ++
    ": " ++ generate_footer user_name ++ "\n"
  (⟨filepath, "sequence", mermaid_content⟩, [Effect.write filepath mermaid_content])

/-- generate_class_diagram: writes the class skeleton to class_ts.mmd. -/
def generate_class_diagram (workspace prompt targets depth : String)
    (constraints : Option Cmap) (user_name ts : String) : DiagramResult × List Effect :=
  let filepath := diagrams_folder workspace ++ "/class_" ++ ts ++ ".mmd"
  let mermaid_content :=
    "classDiagram\n    class " ++ targets ++
    " \x7b\n        +attributes\n        +methods()\n    \x7d\n    \n    class Component \x7b\n        +process()\n        +validate()\n    \x7d\n    \n    " ++ targets ++
    " --> Component : uses\n    \n    note \"" ++ generate_footer user_name ++ "\"\n"
  (⟨filepath, "class", mermaid_content⟩, [Effect.write filepath mermaid_content])

/-- generate_er_diagram: writes the entity-relationship skeleton to
er_ts.mmd. -/
def generate_er_diagram (workspace prompt targets depth : String)
    (constraints : Option Cmap) (user_name ts : String) : DiagramResult × List Effect :=
  let filepath := diagrams_folder workspace ++ "/er_" ++ ts ++ ".mmd"
  let mermaid_content :=
    "erDiagram\n    Entity1 ||--o\x7b Entity2 : relationship\n    Entity1 \x7b\n        string id PK\n        string name\n    \x7d\n    Entity2 \x7b\n        string id PK\n        string entity1_id FK\n        string data\n    \x7d\n    \n    note \"" ++
    generate_footer user_name ++ "\"\n"
  (⟨filepath, "er", mermaid_content⟩, [Effect.write filepath mermaid_content])

/-- generate_state_diagram: writes the state skeleton to state_ts.mmd. -/
def generate_state_diagram (workspace prompt targets depth : String)
    (constraints : Option Cmap) (user_name ts : String) : DiagramResult × List Effect :=
  let filepath := diagrams_folder workspace ++ "/state_" ++ ts ++ ".mmd"
  let mermaid_content :=
    "stateDiagram-v2\n    [*] --> Initial\n    Initial --> Processing : " ++ prompt ++
    "\n    Processing --> Complete : Success\n    Processing --> Error : Failure\n    Error --> Processing : Retry\n    Complete --> [*]\n    \n    note \"" ++
    generate_footer user_name ++ "\"\n"
  (⟨filepath, "state", mermaid_content⟩, [Effect.write filepath mermaid_content])

/-- generate_diagram: second-level routing on the diagram constraint,
defaulting to flowchart when the key is absent or unrecognized. -/
def generate_diagram (workspace prompt targets depth : String)
    (constraints : Option Cmap) (user_name ts : String) : DiagramResult × List Effect :=
  let diagram_type :=
    match constraints with
    | some m =>
      match m.lookup "diagram" with
      | some v => v
      | none => "flowchart"
    | none => "flowchart"
  if diagram_type = "sequence" then
    generate_sequence_diagram workspace prompt targets depth constraints user_name ts
  else if diagram_type = "flowchart" then
    generate_flowchart_diagram workspace prompt targets depth constraints user_name ts
  else if diagram_type = "class" then
    generate_class_diagram workspace prompt targets depth constraints user_name ts
  else if diagram_type = "er" then
    generate_er_diagram workspace prompt targets depth constraints user_name ts
  else if diagram_type = "state" then
    generate_state_diagram workspace prompt targets depth constraints user_name ts
  else
    generate_flowchart_diagram workspace prompt targets depth constraints user_name ts

/-- generate_documentation: writes the architecture document, then the
companion flowchart diagram, and lists that diagram file in the result. -/
def generate_documentation (workspace prompt targets depth : String)
    (constraints : Option Cmap) (user_name ts : String) : ProcResult × List Effect :=
  let scan_result := scan_codebase targets
  let filepath := docs_folder workspace ++ "/architecture_doc_" ++ ts ++ ".md"
  let content := create_documentation_content prompt targets depth scan_result user_name
  let diagram_result := generate_flowchart_diagram workspace prompt targets depth constraints user_name ts
  (ProcResult.docResult filepath [diagram_result.1.diagram_file] content,
   [Effect.write filepath content] ++ diagram_result.2)

/-- generate_testcases: writes the test-case document. -/
def generate_testcases (workspace prompt targets depth : String)
    (constraints : Option Cmap) (user_name ts : String) : ProcResult × List Effect :=
  let filepath := docs_folder workspace ++ "/testcases_" ++ ts ++ ".md"
  let content :=
    "# Test Cases for " ++ targets ++
    "\n\n## Overview\nTest cases generated for: " ++ prompt ++
    "\n\n## Test Categories\n\n### 1. Unit Tests\n- Component functionality tests\n- Input validation tests\n- Error handling tests\n\n### 2. Integration Tests\n- System integration tests\n- API endpoint tests\n- Data flow tests\n\n### 3. Performance Tests\n- Load testing\n- Stress testing\n- Scalability testing\n\n## Test Cases\n\n### TC001 - Basic Functionality\n**Objective**: Verify basic functionality of " ++ targets ++
    "\n**Prerequisites**: System is running\n**Steps**:\n1. Initialize " ++ targets ++
    "\n2. Execute primary function\n3. Verify expected output\n\n**Expected Result**: System responds correctly\n\n### TC002 - Error Handling\n**Objective**: Verify error handling in " ++ targets ++
    "\n**Prerequisites**: System is running\n**Steps**:\n1. Provide invalid input\n2. Observe system response\n3. Verify error message\n\n**Expected Result**: Appropriate error message displayed\n\n" ++
    generate_footer user_name ++ "\n"
  (ProcResult.docResult filepath [] content, [Effect.write filepath content])

/-- generate_gapscan: writes the gap-analysis document. -/
def generate_gapscan (workspace prompt targets depth : String)
    (constraints : Option Cmap) (user_name ts : String) : ProcResult × List Effect :=
  let filepath := docs_folder workspace ++ "/gapscan_" ++ ts ++ ".md"
  let content :=
    "# Gap Analysis for " ++ targets ++
    "\n\n## Executive Summary\nGap analysis conducted for: " ++ prompt ++
    "\n\n## Current State Assessment\n\n### Strengths\n- Existing functionality\n- Working components\n- Established patterns\n\n### Identified Gaps\n\n#### 1. Documentation Gaps\n- Missing API documentation\n- Incomplete user guides\n- Outdated technical specifications\n\n#### 2. Testing Gaps\n- Insufficient test coverage\n- Missing integration tests\n- No performance benchmarks\n\n#### 3. Architecture Gaps\n- Unclear component boundaries\n- Missing error handling\n- Scalability concerns\n\n#### 4. Security Gaps\n- Authentication mechanisms\n- Authorization controls\n- Data protection measures\n\n## Recommendations\n\n### High Priority\n1. Implement comprehensive testing strategy\n2. Create detailed API documentation\n3. Establish error handling patterns\n\n### Medium Priority\n1. Improve component architecture\n2. Add security measures\n3. Performance optimization\n\n### Low Priority\n1. Code refactoring\n2. Documentation updates\n3. Tool improvements\n\n## Action Plan\n\n| Priority | Action Item | Timeline | Owner |\n|----------|-------------|----------|-------|\n| High | Testing Strategy | 2 weeks | TBD |\n| High | API Documentation | 1 week | TBD |\n| Medium | Security Review | 4 weeks | TBD |\n\n" ++
    generate_footer user_name ++ "\n"
  (ProcResult.docResult filepath [] content, [Effect.write filepath content])

/-- generate_usecases: generates the companion sequence diagram first,
then writes the use-case document listing that diagram file. -/
def generate_usecases (workspace prompt targets depth : String)
    (constraints : Option Cmap) (user_name ts : String) : ProcResult × List Effect :=
  let filepath := docs_folder workspace ++ "/usecases_" ++ ts ++ ".md"
  let content :=
    "# Use Cases for " ++ targets ++
    "\n\n## Overview\nUse cases defined for: " ++ prompt ++
    "\n\n## Actors\n- Primary User\n- System Administrator\n- External System\n\n## Use Cases\n\n### UC001 - Primary User Interaction\n**Actor**: Primary User\n**Goal**: " ++ prompt ++
    "\n**Preconditions**: User is authenticated\n**Main Flow**:\n1. User accesses " ++ targets ++
    "\n2. System presents interface\n3. User provides input\n4. System processes request\n5. System returns result\n\n**Alternative Flows**:\n- 4a. Invalid input provided\n  - 4a1. System displays error message\n  - 4a2. Return to step 3\n\n**Postconditions**: Request is processed successfully\n\n### UC002 - System Administration\n**Actor**: System Administrator\n**Goal**: Manage " ++ targets ++
    " configuration\n**Preconditions**: Administrator has access\n**Main Flow**:\n1. Administrator accesses admin interface\n2. System displays configuration options\n3. Administrator modifies settings\n4. System validates changes\n5. System applies configuration\n\n**Alternative Flows**:\n- 4a. Invalid configuration\n  - 4a1. System rejects changes\n  - 4a2. Return to step 3\n\n**Postconditions**: System is configured correctly\n\n### UC003 - External System Integration\n**Actor**: External System\n**Goal**: Integrate with " ++ targets ++
    "\n**Preconditions**: API credentials configured\n**Main Flow**:\n1. External system sends request\n2. System validates credentials\n3. System processes request\n4. System returns response\n\n**Alternative Flows**:\n- 2a. Invalid credentials\n  - 2a1. System returns authentication error\n  - 2a2. End use case\n\n**Postconditions**: Integration is successful\n\n" ++
    generate_footer user_name ++ "\n"
  let diagram_result := generate_sequence_diagram workspace prompt targets depth constraints user_name ts
  (ProcResult.docResult filepath [diagram_result.1.diagram_file] content,
   diagram_result.2 ++ [Effect.write filepath content])

/-- The artifactType enumeration of the process validation. -/
def artifactTypeList : List String := ["doc", "diagram", "testcases", "gapscan", "usecases"]

/-- The depth enumeration of the process validation. -/
def depthList : List String := ["overview", "subsystem", "interface-only"]

/-- The if/elif dispatch chain of process, with its final unreachable
unsupported-type branch. -/
def dispatch (workspace prompt targets artifact_type depth : String)
    (constraints : Option Cmap) (user_name ts : String) :
    Except String (ProcResult × List Effect) :=
  if artifact_type = "doc" then
    Except.ok (generate_documentation workspace prompt targets depth constraints user_name ts)
  else if artifact_type = "diagram" then
    let r := generate_diagram workspace prompt targets depth constraints user_name ts
    Except.ok (ProcResult.diagResult r.1, r.2)
  else if artifact_type = "testcases" then
    Except.ok (generate_testcases workspace prompt targets depth constraints user_name ts)
  else if artifact_type = "gapscan" then
    Except.ok (generate_gapscan workspace prompt targets depth constraints user_name ts)
  else if artifact_type = "usecases" then
    Except.ok (generate_usecases workspace prompt targets depth constraints user_name ts)
  else
    Except.error ("Unsupported artifact_type: " ++ artifact_type)

/-- HighLevelArchitectChatMode.process: validates the two enumerations,
ensures the output directories, then dispatches. The effect list records
directory creations and file writes in program order; a validation
failure returns before any effect. -/
def process (workspace prompt targets artifact_type depth : String)
    (constraints : Option Cmap) (user_name ts : String) :
    Except String ProcResult × List Effect :=
  if artifact_type ∈ artifactTypeList then
    if depth ∈ depthList then
      let dirEffects := [Effect.mkdir (docs_folder workspace), Effect.mkdir (diagrams_folder workspace)]
      match dispatch workspace prompt targets artifact_type depth constraints user_name ts with
      | Except.ok (r, effs) => (Except.ok r, dirEffects ++ effs)
      | Except.error e => (Except.error e, dirEffects)
    else (Except.error ("Invalid depth: " ++ depth), [])
  else (Except.error ("Invalid artifact_type: " ++ artifact_type), [])

/- ------------------------------------------------------------------ -/
/- ArchitecturalDocumentationAgent (architectural_documentation_agent) -/

/-- The success/failure envelope returned by the agent. -/
structure AgentResult where
  success : Bool
  error : Option String
  result : Option ProcResult
deriving DecidableEq

/-- ArchitecturalDocumentationAgent.process: parses parameters, checks
the three required fields with Python truthiness, then calls the
chatmode; every raised error is caught and returned as an envelope. -/
def agent_process (input_data : String) (context : Option (List (String × PVal)))
    (workspace ts : String) : AgentResult :=
  let params := parse_input input_data context
  if isFalsy (params "prompt") then
    ⟨false, some "\x27prompt\x27 parameter is required", none⟩
  else if isFalsy (params "targets") then
    ⟨false, some "\x27targets\x27 parameter is required", none⟩
  else if isFalsy (params "artifactType") then
    ⟨false, some "\x27artifactType\x27 parameter is required", none⟩
  else
    match (process workspace (asStr (params "prompt") "") (asStr (params "targets") "")
        (asStr (params "artifactType") "") (asStr (params "depth") "overview")
        (asCmap (params "constraints")) (asStr (params "user_name") "User") ts).1 with
    | Except.ok r => ⟨true, none, some r⟩
    | Except.error e => ⟨false, some e, none⟩

/- ------------------------------------------------------------------ -/
/- Helper lemmas                                                       -/

theorem strContains_of_prefixB (s key : String) (h : key.data.isPrefixOf s.data = true) :
    strContains s key = true := by
  rw [ List.isPrefixOf_iff_prefix] at h
  obtain ⟨t, ht⟩ := h
  unfold strContains
  rw [← ht]
  exact infixCheck_self key.data t

theorem process_eq_of_valid (workspace prompt targets artifact_type depth : String)
    (constraints : Option Cmap) (user_name ts : String)
    (ha : artifact_type ∈ artifactTypeList) (hd : depth ∈ depthList) :
    process workspace prompt targets artifact_type depth constraints user_name ts =
      match dispatch workspace prompt targets artifact_type depth constraints user_name ts with
      | Except.ok (r, effs) =>
          (Except.ok r,
           [Effect.mkdir (docs_folder workspace), Effect.mkdir (diagrams_folder workspace)] ++ effs)
      | Except.error e =>
          (Except.error e,
           [Effect.mkdir (docs_folder workspace), Effect.mkdir (diagrams_folder workspace)]) := by
  unfold process
  rw [if_pos ha, if_pos hd]

theorem applyLines_not_mem (l : List (String × String)) :
    ∀ (m : Params) (k : String), k ∉ l.map Prod.fst → applyLines m l k = m k := by
  induction l with
  | nil => intro m k _; rfl
  | cons kv rest ih =>
    intro m k hk
    simp only [List.map_cons, List.mem_cons] at hk
    push_neg at hk
    rw [applyLines, ih _ k hk.2]
    simp [pinsert, hk.1]

theorem applyLines_mem_indep (l : List (String × String)) :
    ∀ (m m' : Params) (k : String), k ∈ l.map Prod.fst →
      applyLines m l k = applyLines m' l k := by
  induction l with
  | nil => intro m m' k hk; simp at hk
  | cons kv rest ih =>
    intro m m' k hk
    by_cases hr : k ∈ rest.map Prod.fst
    · rw [applyLines, applyLines]
      exact ih _ _ k hr
    · have hk1 : k = kv.1 := by
        simp only [List.map_cons, List.mem_cons] at hk
        tauto
      rw [applyLines, applyLines, applyLines_not_mem rest _ k hr, applyLines_not_mem rest _ k hr]
      simp [pinsert, hk1]

theorem applyLines_val (l : List (String × String)) :
    ∀ (m : Params) (k : String),
      applyLines m l k = m k ∨
        ∃ v, (k, v) ∈ l ∧ applyLines m l k = some (PVal.str v) := by
  induction l with
  | nil => intro m k; exact Or.inl rfl
  | cons kv rest ih =>
    intro m k
    rw [applyLines]
    rcases ih (pinsert m kv.1 (PVal.str kv.2)) k with h | ⟨v, hv, he⟩
    · by_cases hk : k = kv.1
      · subst hk
        right
        refine ⟨kv.2, List.mem_cons_self _ _, ?_⟩
        rw [h]
        simp [pinsert]
      · left
        rw [h]
        simp [pinsert, hk]
    · right
      exact ⟨v, List.mem_cons_of_mem _ hv, he⟩

theorem invalid_depth_ne_unsupported (d s : String) :
    ("Invalid depth: " ++ d : String) ≠ "Unsupported artifact_type: " ++ s := by
  intro h
  have h1 : (("Invalid depth: " : String) ++ d).data.head? = some 'I' := by
    rw [strdata_append]; rfl
  have h2 : (("Unsupported artifact_type: " : String) ++ s).data.head? = some 'U' := by
    rw [strdata_append]; rfl
  rw [h, h2] at h1
  exact absurd h1 (by decide)

theorem seq_content_head (workspace prompt targets depth : String)
    (constraints : Option Cmap) (user_name ts : String) :
    strContains (generate_sequence_diagram workspace prompt targets depth constraints user_name ts).1.content
      "sequenceDiagram" = true := by
  simp only [generate_sequence_diagram]
  repeat apply strContains_append_right
  apply strContains_of_prefixB
  decide

theorem flow_content_head (workspace prompt targets depth : String)
    (constraints : Option Cmap) (user_name ts : String) :
    strContains (generate_flowchart_diagram workspace prompt targets depth constraints user_name ts).1.content
      "flowchart TD" = true := by
  simp only [generate_flowchart_diagram, create_flowchart_content]
  repeat apply strContains_append_right
  apply strContains_of_prefixB
  decide

theorem class_content_head (workspace prompt targets depth : String)
    (constraints : Option Cmap) (user_name ts : String) :
    strContains (generate_class_diagram workspace prompt targets depth constraints user_name ts).1.content
      "classDiagram" = true := by
  simp only [generate_class_diagram]
  repeat apply strContains_append_right
  apply strContains_of_prefixB
  decide

theorem er_content_head (workspace prompt targets depth : String)
    (constraints : Option Cmap) (user_name ts : String) :
    strContains (generate_er_diagram workspace prompt targets depth constraints user_name ts).1.content
      "erDiagram" = true := by
  simp only [generate_er_diagram]
  repeat apply strContains_append_right
  apply strContains_of_prefixB
  decide

theorem state_content_head (workspace prompt targets depth : String)
    (constraints : Option Cmap) (user_name ts : String) :
    strContains (generate_state_diagram workspace prompt targets depth constraints user_name ts).1.content
      "stateDiagram-v2" = true := by
  simp only [generate_state_diagram]
  repeat apply strContains_append_right
  apply strContains_of_prefixB
  decide

/-- The root keyword of each diagram skeleton, as the specification
describes it (used only to state the skeleton claims). -/
def skeletonRoot : String → String
  | "sequence" => "sequenceDiagram"
  | "flowchart" => "flowchart TD"
  | "class" => "classDiagram"
  | "er" => "erDiagram"
  | "state" => "stateDiagram-v2"
  | _ => ""

/-- The diagram sub-kind requested through the constraints mapping, as the
specification describes it (used only to state the routing claim). -/
def constraintDiagram (constraints : Option Cmap) : Option String :=
  constraints.bind (fun m => m.lookup "diagram")

/- ------------------------------------------------------------------ -/
/- Claims                                                              -/

set_option maxRecDepth 400000 in
/-- Claim C1. The claim states that the content of every artifact kind,
the flowchart diagram kind in particular, contains the substring
consisting of the text as directed by followed by the user name. The
flowchart content builder receives no user name and appends no footer,
so a flowchart diagram requested through process lacks the substring,
while for instance the architecture document content does contain it:
the code contradicts the footerRequired constraint of its own
configuration. -/
theorem c1_flowchart_footer_missing :
    ((process "." "Document auth" "AuthService" "diagram" "overview" none "Alice"
        "20250101_120000").1.toOption.map
      (fun r => strContains r.content "as directed by Alice")) = some false ∧
    strContains (create_documentation_content "Document auth" "AuthService" "overview"
      (scan_codebase "AuthService") "Alice") "as directed by Alice" = true := by
  decide

/-- Claim C2. A process call whose artifact type or depth is outside its
enumeration fails with an invalid-argument error carrying the offending
value, and the effect list is empty: no directory is created and no file
is written before the failure. -/
theorem c2_invalid_request_no_effects (workspace prompt targets artifact_type depth : String)
    (constraints : Option Cmap) (user_name ts : String)
    (h : artifact_type ∉ artifactTypeList ∨
         (artifact_type ∈ artifactTypeList ∧ depth ∉ depthList)) :
    (process workspace prompt targets artifact_type depth constraints user_name ts).2 = [] ∧
    ((artifact_type ∉ artifactTypeList ∧
        (process workspace prompt targets artifact_type depth constraints user_name ts).1 =
          Except.error ("Invalid artifact_type: " ++ artifact_type)) ∨
     (artifact_type ∈ artifactTypeList ∧ depth ∉ depthList ∧
        (process workspace prompt targets artifact_type depth constraints user_name ts).1 =
          Except.error ("Invalid depth: " ++ depth))) := by
  rcases h with h | ⟨h1, h2⟩
  · unfold process
    rw [if_neg h]
    exact ⟨rfl, Or.inl ⟨h, rfl⟩⟩
  · unfold process
    rw [if_pos h1, if_neg h2]
    exact ⟨rfl, Or.inr ⟨h1, h2, rfl⟩⟩

theorem c2_invalid_request_no_effects_witness :
    (("bogus" : String) ∉ artifactTypeList ∨
       (("bogus" : String) ∈ artifactTypeList ∧ ("overview" : String) ∉ depthList)) ∧
    ((process "." "p" "t" "bogus" "overview" none "User" "20250101_120000").2 = [] ∧
     ((("bogus" : String) ∉ artifactTypeList ∧
         (process "." "p" "t" "bogus" "overview" none "User" "20250101_120000").1 =
           Except.error ("Invalid artifact_type: " ++ "bogus")) ∨
      (("bogus" : String) ∈ artifactTypeList ∧ ("overview" : String) ∉ depthList ∧
         (process "." "p" "t" "bogus" "overview" none "User" "20250101_120000").1 =
           Except.error ("Invalid depth: " ++ "overview")))) :=
  ⟨by decide,
   c2_invalid_request_no_effects "." "p" "t" "bogus" "overview" none "User" "20250101_120000"
     (by decide)⟩

/-- Claim C3. With a valid depth, the doc artifact always lists exactly
one diagram file, the one produced by the flowchart generator, and the
usecases artifact always lists exactly one diagram file, the one produced
by the sequence generator, for every constraints value. -/
theorem c3_composite_diagram_pairing (workspace prompt targets depth : String)
    (constraints : Option Cmap) (user_name ts : String)
    (hd : depth ∈ depthList) :
    (∃ r, (process workspace prompt targets "doc" depth constraints user_name ts).1 =
        Except.ok r ∧
      r.diagramFilesOf = some
        [(generate_flowchart_diagram workspace prompt targets depth constraints user_name ts).1.diagram_file]) ∧
    (∃ r, (process workspace prompt targets "usecases" depth constraints user_name ts).1 =
        Except.ok r ∧
      r.diagramFilesOf = some
        [(generate_sequence_diagram workspace prompt targets depth constraints user_name ts).1.diagram_file]) := by
  constructor
  · refine ⟨(generate_documentation workspace prompt targets depth constraints user_name ts).1, ?_, ?_⟩
    · rw [process_eq_of_valid _ _ _ _ _ _ _ _ (by decide) hd]
      rfl
    · rfl
  · refine ⟨(generate_usecases workspace prompt targets depth constraints user_name ts).1, ?_, ?_⟩
    · rw [process_eq_of_valid _ _ _ _ _ _ _ _ (by decide) hd]
      rfl
    · rfl

theorem c3_composite_diagram_pairing_witness :
    (("overview" : String) ∈ depthList) ∧
    ((∃ r, (process "." "p" "t" "doc" "overview" none "User" "20250101_120000").1 =
        Except.ok r ∧
      r.diagramFilesOf = some
        [(generate_flowchart_diagram "." "p" "t" "overview" none "User" "20250101_120000").1.diagram_file]) ∧
     (∃ r, (process "." "p" "t" "usecases" "overview" none "User" "20250101_120000").1 =
        Except.ok r ∧
      r.diagramFilesOf = some
        [(generate_sequence_diagram "." "p" "t" "overview" none "User" "20250101_120000").1.diagram_file])) :=
  ⟨by decide,
   c3_composite_diagram_pairing "." "p" "t" "overview" none "User" "20250101_120000" (by decide)⟩

/-- Claim C4. Second-level diagram routing: when the constraints mapping
holds a recognized diagram kind that generator is selected, and when the
key is absent the flowchart generator is selected; an unrecognized value
falls through the selection chain to the flowchart generator as well, and
no error is possible since the routing is a total function. -/
theorem c4_diagram_routing (workspace prompt targets depth user_name ts k : String)
    (constraints : Option Cmap)
    (h : constraintDiagram constraints = some k ∨
         (constraintDiagram constraints = none ∧ k = "flowchart")) :
    generate_diagram workspace prompt targets depth constraints user_name ts =
      (if k = "sequence" then
        generate_sequence_diagram workspace prompt targets depth constraints user_name ts
      else if k = "flowchart" then
        generate_flowchart_diagram workspace prompt targets depth constraints user_name ts
      else if k = "class" then
        generate_class_diagram workspace prompt targets depth constraints user_name ts
      else if k = "er" then
        generate_er_diagram workspace prompt targets depth constraints user_name ts
      else if k = "state" then
        generate_state_diagram workspace prompt targets depth constraints user_name ts
      else
        generate_flowchart_diagram workspace prompt targets depth constraints user_name ts) := by
  unfold generate_diagram
  rcases h with h | ⟨h, hk⟩
  · cases constraints with
    | none => simp [constraintDiagram] at h
    | some m =>
      have h' : m.lookup "diagram" = some k := by simpa [constraintDiagram] using h
      simp only [h']
  · subst hk
    cases constraints with
    | none => rfl
    | some m =>
      have h' : m.lookup "diagram" = none := by simpa [constraintDiagram] using h
      simp only [h']

theorem c4_diagram_routing_witness :
    (constraintDiagram (some [("diagram", "class")]) = some "class" ∨
       (constraintDiagram (some [("diagram", "class")]) = none ∧ ("class" : String) = "flowchart")) ∧
    generate_diagram "." "p" "t" "overview" (some [("diagram", "class")]) "User" "20250101_120000" =
      (if ("class" : String) = "sequence" then
        generate_sequence_diagram "." "p" "t" "overview" (some [("diagram", "class")]) "User" "20250101_120000"
      else if ("class" : String) = "flowchart" then
        generate_flowchart_diagram "." "p" "t" "overview" (some [("diagram", "class")]) "User" "20250101_120000"
      else if ("class" : String) = "class" then
        generate_class_diagram "." "p" "t" "overview" (some [("diagram", "class")]) "User" "20250101_120000"
      else if ("class" : String) = "er" then
        generate_er_diagram "." "p" "t" "overview" (some [("diagram", "class")]) "User" "20250101_120000"
      else if ("class" : String) = "state" then
        generate_state_diagram "." "p" "t" "overview" (some [("diagram", "class")]) "User" "20250101_120000"
      else
        generate_flowchart_diagram "." "p" "t" "overview" (some [("diagram", "class")]) "User" "20250101_120000") :=
  ⟨by decide,
   c4_diagram_routing "." "p" "t" "overview" "User" "20250101_120000" "class"
     (some [("diagram", "class")]) (by decide)⟩

/-- Claim C5. For every recognized diagram sub-kind, a process call with
artifact type diagram and that kind in the constraints mapping succeeds
with a result whose diagram_type equals the kind and whose content
contains the root keyword of that kind's skeleton. -/
theorem c5_diagram_kind_skeleton (workspace prompt targets depth user_name ts k : String)
    (hk : k ∈ (["sequence", "flowchart", "class", "er", "state"] : List String))
    (hd : depth ∈ depthList) :
    ∃ r, (process workspace prompt targets "diagram" depth (some [("diagram", k)]) user_name ts).1 =
        Except.ok r ∧
      r.diagramTypeOf = some k ∧
      strContains r.content (skeletonRoot k) = true := by
  have hmem : ("diagram" : String) ∈ artifactTypeList := by decide
  simp only [List.mem_cons, List.not_mem_nil, or_false] at hk
  rcases hk with rfl | rfl | rfl | rfl | rfl
  · refine ⟨ProcResult.diagResult (generate_sequence_diagram workspace prompt targets depth
      (some [("diagram", "sequence")]) user_name ts).1, ?_, rfl, ?_⟩
    · rw [process_eq_of_valid _ _ _ _ _ _ _ _ hmem hd]
      rfl
    · exact seq_content_head workspace prompt targets depth (some [("diagram", "sequence")]) user_name ts
  · refine ⟨ProcResult.diagResult (generate_flowchart_diagram workspace prompt targets depth
      (some [("diagram", "flowchart")]) user_name ts).1, ?_, rfl, ?_⟩
    · rw [process_eq_of_valid _ _ _ _ _ _ _ _ hmem hd]
      rfl
    · exact flow_content_head workspace prompt targets depth (some [("diagram", "flowchart")]) user_name ts
  · refine ⟨ProcResult.diagResult (generate_class_diagram workspace prompt targets depth
      (some [("diagram", "class")]) user_name ts).1, ?_, rfl, ?_⟩
    · rw [process_eq_of_valid _ _ _ _ _ _ _ _ hmem hd]
      rfl
    · exact class_content_head workspace prompt targets depth (some [("diagram", "class")]) user_name ts
  · refine ⟨ProcResult.diagResult (generate_er_diagram workspace prompt targets depth
      (some [("diagram", "er")]) user_name ts).1, ?_, rfl, ?_⟩
    · rw [process_eq_of_valid _ _ _ _ _ _ _ _ hmem hd]
      rfl
    · exact er_content_head workspace prompt targets depth (some [("diagram", "er")]) user_name ts
  · refine ⟨ProcResult.diagResult (generate_state_diagram workspace prompt targets depth
      (some [("diagram", "state")]) user_name ts).1, ?_, rfl, ?_⟩
    · rw [process_eq_of_valid _ _ _ _ _ _ _ _ hmem hd]
      rfl
    · exact state_content_head workspace prompt targets depth (some [("diagram", "state")]) user_name ts

theorem c5_diagram_kind_skeleton_witness :
    (("er" : String) ∈ (["sequence", "flowchart", "class", "er", "state"] : List String)) ∧
    (("overview" : String) ∈ depthList) ∧
    (∃ r, (process "." "p" "t" "diagram" "overview" (some [("diagram", "er")]) "User"
        "20250101_120000").1 = Except.ok r ∧
      r.diagramTypeOf = some "er" ∧
      strContains r.content (skeletonRoot "er") = true) :=
  ⟨by decide, by decide,
   c5_diagram_kind_skeleton "." "p" "t" "overview" "User" "20250101_120000" "er"
     (by decide) (by decide)⟩

/-- Claim C6. When the input text holds an equals sign, the adapter merge
applies the context first and then overwrites from the parsed key=value
lines: on every key that appears among the parsed lines the merged value
equals the value derived from the text alone, whatever the context said. -/
theorem c6_text_overrides_context (ctx : List (String × PVal)) (text k : String)
    (h1 : text.data.elem '=' = true)
    (h2 : k ∈ (parseLines text).map Prod.fst) :
    parse_input text (some ctx) k = applyLines (fun _ => none) (parseLines text) k := by
  unfold parse_input
  simp only [h1, if_true]
  exact applyLines_mem_indep (parseLines text) _ _ k h2

theorem c6_text_overrides_context_witness :
    ("prompt=fromText" : String).data.elem '=' = true ∧
    ("prompt" : String) ∈ (parseLines "prompt=fromText").map Prod.fst ∧
    parse_input "prompt=fromText" (some [("prompt", PVal.str "fromContext")]) "prompt" =
      applyLines (fun _ => none) (parseLines "prompt=fromText") "prompt" :=
  ⟨by decide, by decide,
   c6_text_overrides_context [("prompt", PVal.str "fromContext")] "prompt=fromText" "prompt"
     (by decide) (by decide)⟩

/-- Claim C7. When any of the three required parameters is missing after
the merge (Python truthiness: absent, empty string or empty mapping), the
agent returns a failure envelope, never an exception, whose error message
names the first missing parameter in the prompt, targets, artifactType
checking order; a single missing field is therefore always named. -/
theorem c7_missing_required_fields (input_data : String)
    (context : Option (List (String × PVal))) (workspace ts : String)
    (h : isFalsy (parse_input input_data context "prompt") = true ∨
         isFalsy (parse_input input_data context "targets") = true ∨
         isFalsy (parse_input input_data context "artifactType") = true) :
    (agent_process input_data context workspace ts).success = false ∧
    (agent_process input_data context workspace ts).error = some
      (if isFalsy (parse_input input_data context "prompt") then
        "\x27prompt\x27 parameter is required"
      else if isFalsy (parse_input input_data context "targets") then
        "\x27targets\x27 parameter is required"
      else
        "\x27artifactType\x27 parameter is required") := by
  unfold agent_process
  by_cases h1 : isFalsy (parse_input input_data context "prompt") = true
  · simp [h1]
  · rw [Bool.not_eq_true] at h1
    by_cases h2 : isFalsy (parse_input input_data context "targets") = true
    · simp [h1, h2]
    · rw [Bool.not_eq_true] at h2
      have h3 : isFalsy (parse_input input_data context "artifactType") = true := by
        rcases h with h | h | h
        · rw [h1] at h; exact absurd h (by decide)
        · rw [h2] at h; exact absurd h (by decide)
        · exact h
      simp [h1, h2, h3]

theorem c7_missing_required_fields_witness :
    (isFalsy (parse_input "z" none "prompt") = true ∨
       isFalsy (parse_input "z" none "targets") = true ∨
       isFalsy (parse_input "z" none "artifactType") = true) ∧
    ((agent_process "z" none "." "20250101_120000").success = false ∧
     (agent_process "z" none "." "20250101_120000").error = some
       (if isFalsy (parse_input "z" none "prompt") then
         "\x27prompt\x27 parameter is required"
       else if isFalsy (parse_input "z" none "targets") then
         "\x27targets\x27 parameter is required"
       else
         "\x27artifactType\x27 parameter is required")) :=
  ⟨by decide, c7_missing_required_fields "z" none "." "20250101_120000" (by decide)⟩

/-- Claim C8. Generation is deterministic at a fixed timestamp: the model
of process is a pure function of the request fields, the codebase scan
returns the same empty structure for every target, and the documentation
content builder gives the same text whatever scan result it receives. -/
theorem c8_deterministic_scan_stub (workspace prompt targets artifact_type depth : String)
    (constraints : Option Cmap) (user_name ts : String)
    (targets1 targets2 : String) (scan1 scan2 : ScanResult) :
    process workspace prompt targets artifact_type depth constraints user_name ts =
      process workspace prompt targets artifact_type depth constraints user_name ts ∧
    scan_codebase targets1 = scan_codebase targets2 ∧
    create_documentation_content prompt targets depth scan1 user_name =
      create_documentation_content prompt targets depth scan2 user_name :=
  ⟨rfl, rfl, rfl⟩

/-- Claim C9. Every artifact type passing the membership validation is
handled by exactly one of the five generator branches, so the final
unsupported-artifact-type error of the dispatch chain is unreachable. -/
theorem c9_unsupported_branch_unreachable (workspace prompt targets artifact_type depth : String)
    (constraints : Option Cmap) (user_name ts : String)
    (h : artifact_type ∈ artifactTypeList) :
    (process workspace prompt targets artifact_type depth constraints user_name ts).1 ≠
      Except.error ("Unsupported artifact_type: " ++ artifact_type) ∧
    ((artifact_type = "doc" ∧
        dispatch workspace prompt targets artifact_type depth constraints user_name ts =
          Except.ok (generate_documentation workspace prompt targets depth constraints user_name ts)) ∨
     (artifact_type = "diagram" ∧
        dispatch workspace prompt targets artifact_type depth constraints user_name ts =
          Except.ok (ProcResult.diagResult
              (generate_diagram workspace prompt targets depth constraints user_name ts).1,
            (generate_diagram workspace prompt targets depth constraints user_name ts).2)) ∨
     (artifact_type = "testcases" ∧
        dispatch workspace prompt targets artifact_type depth constraints user_name ts =
          Except.ok (generate_testcases workspace prompt targets depth constraints user_name ts)) ∨
     (artifact_type = "gapscan" ∧
        dispatch workspace prompt targets artifact_type depth constraints user_name ts =
          Except.ok (generate_gapscan workspace prompt targets depth constraints user_name ts)) ∨
     (artifact_type = "usecases" ∧
        dispatch workspace prompt targets artifact_type depth constraints user_name ts =
          Except.ok (generate_usecases workspace prompt targets depth constraints user_name ts))) := by
  simp only [artifactTypeList, List.mem_cons, List.not_mem_nil, or_false] at h
  have hne : ∀ (hmem : artifact_type ∈ artifactTypeList)
      (hok : ∀ hd : depth ∈ depthList, ∃ pr,
        dispatch workspace prompt targets artifact_type depth constraints user_name ts =
          Except.ok pr),
      (process workspace prompt targets artifact_type depth constraints user_name ts).1 ≠
        Except.error ("Unsupported artifact_type: " ++ artifact_type) := by
    intro hmem hok
    by_cases hd : depth ∈ depthList
    · rw [process_eq_of_valid _ _ _ _ _ _ _ _ hmem hd]
      obtain ⟨pr, hpr⟩ := hok hd
      rw [hpr]
      simp
    · unfold process
      rw [if_pos hmem, if_neg hd]
      intro hcontra
      exact invalid_depth_ne_unsupported depth artifact_type (Except.error.inj hcontra)
  rcases h with rfl | rfl | rfl | rfl | rfl
  · exact ⟨hne (by decide) (fun _ => ⟨_, rfl⟩), Or.inl ⟨rfl, rfl⟩⟩
  · exact ⟨hne (by decide) (fun _ => ⟨_, rfl⟩), Or.inr (Or.inl ⟨rfl, rfl⟩)⟩
  · exact ⟨hne (by decide) (fun _ => ⟨_, rfl⟩), Or.inr (Or.inr (Or.inl ⟨rfl, rfl⟩))⟩
  · exact ⟨hne (by decide) (fun _ => ⟨_, rfl⟩), Or.inr (Or.inr (Or.inr (Or.inl ⟨rfl, rfl⟩)))⟩
  · exact ⟨hne (by decide) (fun _ => ⟨_, rfl⟩), Or.inr (Or.inr (Or.inr (Or.inr ⟨rfl, rfl⟩)))⟩

theorem c9_unsupported_branch_unreachable_witness :
    (("doc" : String) ∈ artifactTypeList) ∧
    ((process "." "p" "t" "doc" "overview" none "User" "20250101_120000").1 ≠
       Except.error ("Unsupported artifact_type: " ++ "doc") ∧
     ((("doc" : String) = "doc" ∧
         dispatch "." "p" "t" "doc" "overview" none "User" "20250101_120000" =
           Except.ok (generate_documentation "." "p" "t" "overview" none "User" "20250101_120000")) ∨
      (("doc" : String) = "diagram" ∧
         dispatch "." "p" "t" "doc" "overview" none "User" "20250101_120000" =
           Except.ok (ProcResult.diagResult
               (generate_diagram "." "p" "t" "overview" none "User" "20250101_120000").1,
             (generate_diagram "." "p" "t" "overview" none "User" "20250101_120000").2)) ∨
      (("doc" : String) = "testcases" ∧
         dispatch "." "p" "t" "doc" "overview" none "User" "20250101_120000" =
           Except.ok (generate_testcases "." "p" "t" "overview" none "User" "20250101_120000")) ∨
      (("doc" : String) = "gapscan" ∧
         dispatch "." "p" "t" "doc" "overview" none "User" "20250101_120000" =
           Except.ok (generate_gapscan "." "p" "t" "overview" none "User" "20250101_120000")) ∨
      (("doc" : String) = "usecases" ∧
         dispatch "." "p" "t" "doc" "overview" none "User" "20250101_120000" =
           Except.ok (generate_usecases "." "p" "t" "overview" none "User" "20250101_120000")))) :=
  ⟨by decide,
   c9_unsupported_branch_unreachable "." "p" "t" "doc" "overview" none "User" "20250101_120000"
     (by decide)⟩

set_option maxRecDepth 40000 in
/-- Claim C10, counterexample. The claim asserts that any input text
containing an equals sign, with no prompt in the context, ends in the
missing-prompt failure envelope. But a text line whose key parses to
prompt sets the prompt parameter, so with targets and artifactType
supplied by the context the agent generates an artifact successfully. -/
theorem c10_counterexample :
    (agent_process "prompt=Document the auth flow"
        (some [("targets", PVal.str "AuthService"), ("artifactType", PVal.str "doc")])
        "." "20250101_120000").success = true ∧
    (agent_process "prompt=Document the auth flow"
        (some [("targets", PVal.str "AuthService"), ("artifactType", PVal.str "doc")])
        "." "20250101_120000").error = none := by
  decide

/-- Claim C10, amended. When the input text contains an equals sign it is
never taken whole as the prompt; if additionally the context supplies no
prompt and no parsed key=value line yields key prompt with a non-empty
value, the agent returns the missing-prompt failure envelope rather than
a generated artifact. -/
theorem c10_eq_text_not_prompt (input_data : String) (ctx : List (String × PVal))
    (workspace ts : String)
    (h1 : input_data.data.elem '=' = true)
    (h2 : applyCtx (fun _ => none) ctx "prompt" = none)
    (h3 : ∀ kv ∈ parseLines input_data, kv.1 = "prompt" → kv.2 = "") :
    (agent_process input_data (some ctx) workspace ts).success = false ∧
    (agent_process input_data (some ctx) workspace ts).error =
      some "\x27prompt\x27 parameter is required" := by
  have hp : isFalsy (parse_input input_data (some ctx) "prompt") = true := by
    unfold parse_input
    simp only [h1, if_true]
    rcases applyLines_val (parseLines input_data) (applyCtx (fun _ => none) ctx) "prompt" with
      hc | ⟨v, hv, he⟩
    · rw [hc, h2]
      rfl
    · have hv0 : v = "" := h3 ("prompt", v) hv rfl
      rw [he, hv0]
      rfl
  unfold agent_process
  simp [hp]

theorem c10_eq_text_not_prompt_witness :
    ("Compare a=1 with b=2" : String).data.elem '=' = true ∧
    applyCtx (fun _ => none)
      [("targets", PVal.str "T"), ("artifactType", PVal.str "doc")] "prompt" = none ∧
    (∀ kv ∈ parseLines "Compare a=1 with b=2", kv.1 = "prompt" → kv.2 = "") ∧
    ((agent_process "Compare a=1 with b=2"
        (some [("targets", PVal.str "T"), ("artifactType", PVal.str "doc")]) "." "20250101_120000").success = false ∧
     (agent_process "Compare a=1 with b=2"
        (some [("targets", PVal.str "T"), ("artifactType", PVal.str "doc")]) "." "20250101_120000").error =
       some "\x27prompt\x27 parameter is required") :=
  ⟨by decide, by decide, by decide,
   c10_eq_text_not_prompt "Compare a=1 with b=2"
     [("targets", PVal.str "T"), ("artifactType", PVal.str "doc")] "." "20250101_120000"
     (by decide) (by decide) (by decide)⟩

end Orka
